import Mathlib

/-!
Verification development for `src/src/gui/processing/qgsprocessingwidgetwrapper.h`.

The repository file is a C++ header declaring the Processing parameter
widget-wrapper classes: `QgsProcessingParameterWidgetContext` (ambient UI
state), `QgsAbstractProcessingParameterWidgetWrapper` (the wrapper binding a
parameter definition to an on-screen widget), the `QgsProcessingGuiUtils`
helper and the `QgsProcessingParameterWidgetFactoryInterface` factory.

Collaborator classes (map canvas, project, model algorithm, vector layer,
processing context, algorithm) are opaque in the header and out of scope in the
spec; they are modelled as identity-carrying tokens.  Raw C++ pointers are
modelled as `Option` of the pointee token, `nullptr` being `none`.  `QString`
is modelled as `String` and `QVariant` as a small inductive value type.

Method bodies live in the corresponding `.cpp` file, which is not part of the
source tree; following the spec, each such body is embedded by a definition
whose doc comment starts with `Modelled from the spec:` and records what is
missing.  Everything whose value is visible in the header itself (field
declarations, default member initializers, signatures) is embedded directly
from the header.
-/

/-- Opaque collaborator: a Processing context (`QgsProcessingContext`),
declared but not defined in the header. -/
structure QgsProcessingContext where
  id : Nat
deriving DecidableEq, Repr

/-- Opaque collaborator: an object implementing the
`QgsProcessingContextGenerator` interface. -/
structure QgsProcessingContextGenerator where
  id : Nat
deriving DecidableEq, Repr

/-- Opaque collaborator: a map canvas (`QgsMapCanvas`). -/
structure QgsMapCanvas where
  id : Nat
deriving DecidableEq, Repr

/-- Opaque collaborator: a project (`QgsProject`). -/
structure QgsProject where
  id : Nat
deriving DecidableEq, Repr

/-- Opaque collaborator: a model algorithm
(`QgsProcessingModelAlgorithm`). -/
structure QgsProcessingModelAlgorithm where
  id : Nat
deriving DecidableEq, Repr

/-- Opaque collaborator: a vector layer (`QgsVectorLayer`). -/
structure QgsVectorLayer where
  id : Nat
deriving DecidableEq, Repr

/-- Opaque collaborator: a processing algorithm
(`QgsProcessingAlgorithm`). -/
structure QgsProcessingAlgorithm where
  id : Nat
deriving DecidableEq, Repr

/-- Model of Qt `QVariant`: the dynamically typed value carried between the
wrapper and its wrapped widget. -/
inductive QVariant where
  | null
  | ofInt (i : Int)
  | ofString (s : String)
deriving DecidableEq, Repr

/-- Opaque collaborator: a parameter definition
(`QgsProcessingParameterDefinition`).  Only the accessors the header relies on
are modelled: its name, the algorithm owning it (used by
`createExpressionContext`), and its default value (used by
`createWrappedWidget` to initialize the widget). -/
structure QgsProcessingParameterDefinition where
  name : String
  algorithm : Option QgsProcessingAlgorithm
  defaultValue : QVariant
deriving DecidableEq, Repr

namespace QgsProcessingGui

/-- The dialog types for which wrappers can be created, from
`qgsprocessinggui.h` (an opaque collaborator header): a standard algorithm
dialog, a batch processing dialog, or a modeler dialog. -/
inductive WidgetType where
  | Standard
  | Batch
  | Modeler
deriving DecidableEq, Repr

end QgsProcessingGui

/-- `QgsProcessingParameterWidgetContext` (header lines 74-152): ambient state
supplied to a wrapper.  The four private fields and their default member
initializers are taken directly from the header: `mModel = nullptr`,
`mModelChildAlgorithmId` default-constructed (empty), `mMapCanvas = nullptr`,
`mProject = nullptr`. -/
structure QgsProcessingParameterWidgetContext where
  mModel : Option QgsProcessingModelAlgorithm := none
  mModelChildAlgorithmId : String := ""
  mMapCanvas : Option QgsMapCanvas := none
  mProject : Option QgsProject := none
deriving DecidableEq, Repr

namespace QgsProcessingParameterWidgetContext

/-- Modelled from the spec: the body of `setMapCanvas` is in the missing
`.cpp`; per the spec it is one half of a getter/setter pair, storing the map
canvas associated with the widget. -/
def setMapCanvas (ctx : QgsProcessingParameterWidgetContext) (canvas : Option QgsMapCanvas) : QgsProcessingParameterWidgetContext :=
  { ctx with mMapCanvas := canvas }

/-- Modelled from the spec: the body of `mapCanvas` is in the missing `.cpp`;
it returns the map canvas associated with the widget. -/
def mapCanvas (ctx : QgsProcessingParameterWidgetContext) : Option QgsMapCanvas :=
  ctx.mMapCanvas

/-- Modelled from the spec: the body of `setProject` is in the missing `.cpp`;
it stores the project associated with the widget. -/
def setProject (ctx : QgsProcessingParameterWidgetContext) (project : Option QgsProject) : QgsProcessingParameterWidgetContext :=
  { ctx with mProject := project }

/-- Modelled from the spec: the body of `project` is in the missing `.cpp`; it
returns the project associated with the widget. -/
def project (ctx : QgsProcessingParameterWidgetContext) : Option QgsProject :=
  ctx.mProject

/-- Modelled from the spec: the body of `setModel` is in the missing `.cpp`;
it stores the model which the parameter widget is associated with. -/
def setModel (ctx : QgsProcessingParameterWidgetContext) (model : Option QgsProcessingModelAlgorithm) : QgsProcessingParameterWidgetContext :=
  { ctx with mModel := model }

/-- Modelled from the spec: the body of `model` is in the missing `.cpp`; it
returns the model which the parameter widget is associated with. -/
def model (ctx : QgsProcessingParameterWidgetContext) : Option QgsProcessingModelAlgorithm :=
  ctx.mModel

/-- Modelled from the spec: the body of `setModelChildAlgorithmId` is in the
missing `.cpp`; it stores the child algorithm ID within the model. -/
def setModelChildAlgorithmId (ctx : QgsProcessingParameterWidgetContext) (id : String) : QgsProcessingParameterWidgetContext :=
  { ctx with mModelChildAlgorithmId := id }

/-- Modelled from the spec: the body of `modelChildAlgorithmId` is in the
missing `.cpp`; it returns the child algorithm ID within the model. -/
def modelChildAlgorithmId (ctx : QgsProcessingParameterWidgetContext) : String :=
  ctx.mModelChildAlgorithmId

end QgsProcessingParameterWidgetContext

/-- Model of `QgsExpressionContext` as produced by
`QgsProcessingGuiUtils::createExpressionContext`.  The real class belongs to
the expression subsystem, out of scope and treated as an opaque collaborator;
its modelled value records the data it was built from. -/
structure QgsExpressionContext where
  generator : Option QgsProcessingContextGenerator
  widgetContext : QgsProcessingParameterWidgetContext
  algorithm : Option QgsProcessingAlgorithm
  linkedLayer : Option QgsVectorLayer
deriving DecidableEq, Repr

namespace QgsProcessingGuiUtils

/-- Modelled from the spec: the body of
`QgsProcessingGuiUtils::createExpressionContext` (declared at header lines
156-166) is in the missing `.cpp` and builds an expression context from
ambient GUI state by delegating into out-of-scope subsystems; it is modelled
as the opaque collaborator packaging its four arguments. -/
def createExpressionContext (processingContextGenerator : Option QgsProcessingContextGenerator) (widgetContext : QgsProcessingParameterWidgetContext) (algorithm : Option QgsProcessingAlgorithm) (linkedLayer : Option QgsVectorLayer) : QgsExpressionContext :=
  { generator := processingContextGenerator
    widgetContext := widgetContext
    algorithm := algorithm
    linkedLayer := linkedLayer }

end QgsProcessingGuiUtils

/-- The subclass-supplied behavior of a concrete wrapper: the pure virtual
methods of `QgsAbstractProcessingParameterWidgetWrapper` (header lines
325-365).  `W` is the state type of the subclass's wrapped widget.
`createWidget` builds a fresh widget, `setWidgetValue`/`widgetValue` move
values between wrapper and widget, and `linkedVectorLayer` is the virtual
accessor (base implementation returns `nullptr`). -/
structure WidgetImpl (W : Type) where
  createWidget : W
  setWidgetValue : QVariant → QgsProcessingContext → W → W
  widgetValue : W → QVariant
  linkedVectorLayer : Option W → Option QgsVectorLayer

/-- `QgsAbstractProcessingParameterWidgetWrapper` (header lines 189-390):
the modelled fields, with default member initializers from the header.
`mWidget` is the `QPointer` to the wrapped widget, `none` until
`createWrappedWidget` runs.  Toolkit-only members (`mPropertyButton`,
`mLabel`, `mDynamicLayer`) carry no behavior claimed by the spec and are not
modelled. -/
structure QgsAbstractProcessingParameterWidgetWrapper (W : Type) where
  mProcessingContextGenerator : Option QgsProcessingContextGenerator := none
  mWidgetContext : QgsProcessingParameterWidgetContext := {}
  mType : QgsProcessingGui.WidgetType := QgsProcessingGui.WidgetType.Standard
  mParameterDefinition : Option QgsProcessingParameterDefinition := none
  mWidget : Option W := none
deriving Repr

namespace QgsAbstractProcessingParameterWidgetWrapper

/-- Modelled from the spec: the constructor body (header lines 195-200) is in
the missing `.cpp`; it stores the supplied parameter definition and dialog
type, leaving the remaining members at their header defaults. -/
def construct {W : Type} (parameter : Option QgsProcessingParameterDefinition) (t : QgsProcessingGui.WidgetType) : QgsAbstractProcessingParameterWidgetWrapper W :=
  { mParameterDefinition := parameter, mType := t }

/-- Modelled from the spec: the body of `type` is in the missing `.cpp`; it
returns the dialog type for which widgets are created. -/
def type {W : Type} (w : QgsAbstractProcessingParameterWidgetWrapper W) : QgsProcessingGui.WidgetType :=
  w.mType

/-- Modelled from the spec: the body of `parameterDefinition` is in the
missing `.cpp`; it returns the parameter definition associated with this
wrapper. -/
def parameterDefinition {W : Type} (w : QgsAbstractProcessingParameterWidgetWrapper W) : Option QgsProcessingParameterDefinition :=
  w.mParameterDefinition

/-- Modelled from the spec: the body of `setWidgetContext` is in the missing
`.cpp`; it stores the context in which the widget is shown. -/
def setWidgetContext {W : Type} (w : QgsAbstractProcessingParameterWidgetWrapper W) (context : QgsProcessingParameterWidgetContext) : QgsAbstractProcessingParameterWidgetWrapper W :=
  { w with mWidgetContext := context }

/-- Modelled from the spec: the body of `widgetContext` is in the missing
`.cpp`; it returns the context in which the widget is shown. -/
def widgetContext {W : Type} (w : QgsAbstractProcessingParameterWidgetWrapper W) : QgsProcessingParameterWidgetContext :=
  w.mWidgetContext

/-- Modelled from the spec: the body of `createWrappedWidget` is in the
missing `.cpp`; per the header doc it creates the widget via the virtual
`createWidget`, initializes it to the parameter's default value using the
supplied processing context, stores it in `mWidget`, and returns it (signal
connections are toolkit plumbing with no modelled state). -/
def createWrappedWidget {W : Type} (impl : WidgetImpl W) (context : QgsProcessingContext) (w : QgsAbstractProcessingParameterWidgetWrapper W) : QgsAbstractProcessingParameterWidgetWrapper W × W :=
  let widget :=
    match w.mParameterDefinition with
    | some p => impl.setWidgetValue p.defaultValue context impl.createWidget
    | none => impl.createWidget
  ({ w with mWidget := some widget }, widget)

/-- Modelled from the spec: the body of `setParameterValue` is in the missing
`.cpp`; it forwards the value to the virtual `setWidgetValue` on the wrapped
widget. -/
def setParameterValue {W : Type} (impl : WidgetImpl W) (value : QVariant) (context : QgsProcessingContext) (w : QgsAbstractProcessingParameterWidgetWrapper W) : QgsAbstractProcessingParameterWidgetWrapper W :=
  { w with mWidget := w.mWidget.map (impl.setWidgetValue value context) }

/-- Modelled from the spec: the body of `parameterValue` is in the missing
`.cpp`; it reads the current value back through the virtual `widgetValue`
(null when no widget has been created). -/
def parameterValue {W : Type} (impl : WidgetImpl W) (w : QgsAbstractProcessingParameterWidgetWrapper W) : QVariant :=
  match w.mWidget with
  | some widget => impl.widgetValue widget
  | none => QVariant.null

/-- Modelled from the spec: the body of `registerProcessingContextGenerator`
is in the missing `.cpp`; it stores the generator used to retrieve a
Processing context when required. -/
def registerProcessingContextGenerator {W : Type} (w : QgsAbstractProcessingParameterWidgetWrapper W) (generator : Option QgsProcessingContextGenerator) : QgsAbstractProcessingParameterWidgetWrapper W :=
  { w with mProcessingContextGenerator := generator }

/-- Modelled from the spec: the body of `postInitialize` is in the missing
`.cpp`; it only connects this wrapper to the wrappers of related parameters
(signal plumbing), changing none of the modelled state. -/
def postInitialize {W : Type} (w : QgsAbstractProcessingParameterWidgetWrapper W) (wrappers : List (QgsAbstractProcessingParameterWidgetWrapper W)) : QgsAbstractProcessingParameterWidgetWrapper W :=
  w

/-- Modelled from the spec: the body of `createExpressionContext` is in the
missing `.cpp`; per the spec it is a delegating call into
`QgsProcessingGuiUtils::createExpressionContext`, passing the registered
processing-context generator, the current widget context, the algorithm of
the wrapper's parameter definition (null when there is no parameter), and the
virtual `linkedVectorLayer`. -/
def createExpressionContext {W : Type} (impl : WidgetImpl W) (w : QgsAbstractProcessingParameterWidgetWrapper W) : QgsExpressionContext :=
  QgsProcessingGuiUtils.createExpressionContext
    w.mProcessingContextGenerator
    w.mWidgetContext
    (w.mParameterDefinition.bind QgsProcessingParameterDefinition.algorithm)
    (impl.linkedVectorLayer w.mWidget)

end QgsAbstractProcessingParameterWidgetWrapper

/-- Restatement of the spec sentence for the refinement claim: "building
expression contexts from ambient GUI state is a handful of delegating calls"
and the claim's own wording — the result of `createExpressionContext` is
exactly `QgsProcessingGuiUtils::createExpressionContext` applied to the
wrapper's registered processing-context generator, its current widget
context, its parameter's algorithm, and its `linkedVectorLayer`, with no
additional computation. -/
def createExpressionContextSpec {W : Type} (impl : WidgetImpl W) (w : QgsAbstractProcessingParameterWidgetWrapper W) : QgsExpressionContext :=
  QgsProcessingGuiUtils.createExpressionContext
    (w.registerProcessingContextGenerator w.mProcessingContextGenerator).mProcessingContextGenerator
    w.widgetContext
    (match w.parameterDefinition with
     | some p => p.algorithm
     | none => none)
    (impl.linkedVectorLayer w.mWidget)

/-- The signal declared at header line 314: `widgetValueHasChanged` carries
the emitting wrapper (here, its identity) as its argument. -/
inductive WrapperSignal where
  | widgetValueHasChanged (wrapper : Nat)
deriving DecidableEq, Repr

/-- The observable state used for the change-notification behavior of a
wrapper: the wrapper's identity (the `this` pointer carried by the signal)
and the parameter value as currently defined by the wrapped widget. -/
structure WidgetValueTracker where
  self : Nat
  value : QVariant
deriving DecidableEq, Repr

/-- Modelled from the spec: the signal connections made in the missing `.cpp`
realize "track the widget's current value, and notify listeners when it
changes" — whenever the parameter value as defined by the wrapped widget
becomes `newValue`, the wrapper emits `widgetValueHasChanged( this )` exactly
when the value actually changed, and updates its tracked value. -/
def onWidgetValueChanged (s : WidgetValueTracker) (newValue : QVariant) : WidgetValueTracker × List WrapperSignal :=
  if newValue = s.value then (s, [])
  else ({ s with value := newValue }, [WrapperSignal.widgetValueHasChanged s.self])

namespace QgsProcessingParameterWidgetFactoryInterface

/-- Modelled from the spec: `createWidgetWrapper` (header lines 413-426) is a
pure virtual factory method; per the spec a factory constructs a wrapper for
the specified parameter definition and dialog type, i.e. it builds the
wrapper through the base-class constructor with those arguments (the factory
also fixes the subclass behavior `impl`). -/
def createWidgetWrapper {W : Type} (impl : WidgetImpl W) (parameter : Option QgsProcessingParameterDefinition) (t : QgsProcessingGui.WidgetType) : QgsAbstractProcessingParameterWidgetWrapper W :=
  QgsAbstractProcessingParameterWidgetWrapper.construct parameter t

end QgsProcessingParameterWidgetFactoryInterface

open QgsAbstractProcessingParameterWidgetWrapper in
/-- Claim C1: whenever the parameter value as defined by the wrapped widget
changes, the wrapper emits `widgetValueHasChanged` carrying that wrapper as
its argument, and no signal is emitted when the value did not change. -/
theorem widgetValueHasChanged_iff_value_changed (s : WidgetValueTracker) (v : QVariant) :
    ((onWidgetValueChanged s v).2 = [WrapperSignal.widgetValueHasChanged s.self] ↔ v ≠ s.value)
    ∧ ((onWidgetValueChanged s v).2 = [] ↔ v = s.value) := by
  unfold onWidgetValueChanged
  by_cases h : v = s.value <;> simp [h]

/-- Claim C2: each setter/getter pair of
`QgsProcessingParameterWidgetContext` round-trips: after `setMapCanvas c`,
`mapCanvas` returns `c`; after `setProject p`, `project` returns `p`; after
`setModel m`, `model` returns `m`; after `setModelChildAlgorithmId i`,
`modelChildAlgorithmId` returns `i`. -/
theorem widgetContext_setters_roundtrip (ctx : QgsProcessingParameterWidgetContext)
    (c : Option QgsMapCanvas) (p : Option QgsProject)
    (m : Option QgsProcessingModelAlgorithm) (i : String) :
    (ctx.setMapCanvas c).mapCanvas = c
    ∧ (ctx.setProject p).project = p
    ∧ (ctx.setModel m).model = m
    ∧ (ctx.setModelChildAlgorithmId i).modelChildAlgorithmId = i :=
  ⟨rfl, rfl, rfl, rfl⟩

open QgsAbstractProcessingParameterWidgetWrapper in
/-- Claim C3: for a wrapper whose wrapped widget has been created,
`setParameterValue v context` followed by `parameterValue` returns `v`,
provided the subclass's `setWidgetValue`/`widgetValue` pair stores values
exactly. -/
theorem setParameterValue_parameterValue_roundtrip {W : Type} (impl : WidgetImpl W)
    (hexact : ∀ v c s, impl.widgetValue (impl.setWidgetValue v c s) = v)
    (w : QgsAbstractProcessingParameterWidgetWrapper W)
    (hcreated : w.mWidget.isSome)
    (v : QVariant) (c : QgsProcessingContext) :
    parameterValue impl (setParameterValue impl v c w) = v := by
  cases hw : w.mWidget with
  | none => rw [hw] at hcreated; simp [Option.isSome] at hcreated
  | some widget => simp [parameterValue, setParameterValue, hw, hexact]

/-- An `Option QVariant` widget whose `setWidgetValue`/`widgetValue` pair
stores values exactly, used to instantiate conditional theorems at a
concrete input. -/
def exactWidgetImpl : WidgetImpl (Option QVariant) :=
  { createWidget := none
    setWidgetValue := fun v _ _ => some v
    widgetValue := fun s => s.getD QVariant.null
    linkedVectorLayer := fun _ => none }

/-- A wrapper over `exactWidgetImpl` whose wrapped widget has been created. -/
def wrapperWithWidget : QgsAbstractProcessingParameterWidgetWrapper (Option QVariant) :=
  { mWidget := some none }

open QgsAbstractProcessingParameterWidgetWrapper in
/-- Witness for claim C3: the round-trip theorem applied to a concrete exact
widget implementation, wrapper state and value. -/
theorem setParameterValue_parameterValue_roundtrip_witness :
    parameterValue exactWidgetImpl
      (setParameterValue exactWidgetImpl (QVariant.ofInt 7) ⟨0⟩ wrapperWithWidget)
      = QVariant.ofInt 7 :=
  setParameterValue_parameterValue_roundtrip exactWidgetImpl
    (fun _ _ _ => rfl) wrapperWithWidget rfl (QVariant.ofInt 7) ⟨0⟩

open QgsAbstractProcessingParameterWidgetWrapper in
/-- Claim C4: a wrapper is bound to exactly one parameter definition for its
whole lifetime — `parameterDefinition` returns the definition supplied at
construction, and `setWidgetContext`, `createWrappedWidget`,
`setParameterValue`, `registerProcessingContextGenerator` and
`postInitialize` all leave it unchanged. -/
theorem parameterDefinition_immutable {W : Type} (impl : WidgetImpl W)
    (p : Option QgsProcessingParameterDefinition) (t : QgsProcessingGui.WidgetType)
    (ctx : QgsProcessingParameterWidgetContext) (v : QVariant)
    (pc : QgsProcessingContext) (g : Option QgsProcessingContextGenerator)
    (ws : List (QgsAbstractProcessingParameterWidgetWrapper W))
    (w : QgsAbstractProcessingParameterWidgetWrapper W) :
    (construct p t : QgsAbstractProcessingParameterWidgetWrapper W).parameterDefinition = p
    ∧ (w.setWidgetContext ctx).parameterDefinition = w.parameterDefinition
    ∧ ((createWrappedWidget impl pc w).1).parameterDefinition = w.parameterDefinition
    ∧ (setParameterValue impl v pc w).parameterDefinition = w.parameterDefinition
    ∧ (w.registerProcessingContextGenerator g).parameterDefinition = w.parameterDefinition
    ∧ (w.postInitialize ws).parameterDefinition = w.parameterDefinition :=
  ⟨rfl, rfl, rfl, rfl, rfl, rfl⟩

open QgsAbstractProcessingParameterWidgetWrapper in
/-- Claim C5: after `setWidgetContext c`, the wrapper's `widgetContext`
returns a context equal to `c`. -/
theorem setWidgetContext_widgetContext_roundtrip {W : Type}
    (w : QgsAbstractProcessingParameterWidgetWrapper W)
    (c : QgsProcessingParameterWidgetContext) :
    (w.setWidgetContext c).widgetContext = c :=
  rfl

open QgsAbstractProcessingParameterWidgetWrapper in
/-- Claim C6: a wrapper's `createExpressionContext` is exactly the delegating
call `QgsProcessingGuiUtils::createExpressionContext` applied to the
registered processing-context generator, the current widget context, the
parameter's algorithm and `linkedVectorLayer`, as stated by the spec-side
definition `createExpressionContextSpec`. -/
theorem createExpressionContext_delegates {W : Type} (impl : WidgetImpl W)
    (w : QgsAbstractProcessingParameterWidgetWrapper W) :
    createExpressionContext impl w = createExpressionContextSpec impl w := by
  cases hp : w.mParameterDefinition <;>
    simp [createExpressionContext, createExpressionContextSpec,
      registerProcessingContextGenerator, widgetContext, parameterDefinition, hp]

open QgsAbstractProcessingParameterWidgetWrapper in
/-- Claim C7: the factory constructs wrappers consistent with its arguments —
the wrapper returned by `createWidgetWrapper impl p t` satisfies
`parameterDefinition = p` and `type = t`. -/
theorem createWidgetWrapper_consistent {W : Type} (impl : WidgetImpl W)
    (p : Option QgsProcessingParameterDefinition) (t : QgsProcessingGui.WidgetType) :
    (QgsProcessingParameterWidgetFactoryInterface.createWidgetWrapper impl p t).parameterDefinition = p
    ∧ (QgsProcessingParameterWidgetFactoryInterface.createWidgetWrapper impl p t).type = t :=
  ⟨rfl, rfl⟩

open QgsAbstractProcessingParameterWidgetWrapper in
/-- Claim C8: every modelled operation of the file is deterministic — run
twice from equal states with equal arguments, each operation (context
setters and getters, wrapper value get/set, widget-context set/get,
expression-context creation, change notification) produces equal results and
equal resulting states. -/
theorem operations_deterministic {W : Type} (impl : WidgetImpl W)
    (ctx₁ ctx₂ : QgsProcessingParameterWidgetContext) (hctx : ctx₁ = ctx₂)
    (w₁ w₂ : QgsAbstractProcessingParameterWidgetWrapper W) (hw : w₁ = w₂)
    (v₁ v₂ : QVariant) (hv : v₁ = v₂)
    (pc₁ pc₂ : QgsProcessingContext) (hpc : pc₁ = pc₂)
    (c₁ c₂ : Option QgsMapCanvas) (hc : c₁ = c₂)
    (p₁ p₂ : Option QgsProject) (hp : p₁ = p₂)
    (m₁ m₂ : Option QgsProcessingModelAlgorithm) (hm : m₁ = m₂)
    (i₁ i₂ : String) (hi : i₁ = i₂)
    (s₁ s₂ : WidgetValueTracker) (hs : s₁ = s₂) :
    ctx₁.setMapCanvas c₁ = ctx₂.setMapCanvas c₂
    ∧ ctx₁.setProject p₁ = ctx₂.setProject p₂
    ∧ ctx₁.setModel m₁ = ctx₂.setModel m₂
    ∧ ctx₁.setModelChildAlgorithmId i₁ = ctx₂.setModelChildAlgorithmId i₂
    ∧ ctx₁.mapCanvas = ctx₂.mapCanvas
    ∧ ctx₁.project = ctx₂.project
    ∧ ctx₁.model = ctx₂.model
    ∧ ctx₁.modelChildAlgorithmId = ctx₂.modelChildAlgorithmId
    ∧ setParameterValue impl v₁ pc₁ w₁ = setParameterValue impl v₂ pc₂ w₂
    ∧ parameterValue impl w₁ = parameterValue impl w₂
    ∧ w₁.setWidgetContext ctx₁ = w₂.setWidgetContext ctx₂
    ∧ w₁.widgetContext = w₂.widgetContext
    ∧ createExpressionContext impl w₁ = createExpressionContext impl w₂
    ∧ onWidgetValueChanged s₁ v₁ = onWidgetValueChanged s₂ v₂ := by
  subst hctx hw hv hpc hc hp hm hi hs
  exact ⟨rfl, rfl, rfl, rfl, rfl, rfl, rfl, rfl, rfl, rfl, rfl, rfl, rfl, rfl⟩

open QgsAbstractProcessingParameterWidgetWrapper in
/-- Witness for claim C8: the determinism theorem applied at concrete equal
states and arguments. -/
theorem operations_deterministic_witness :
    ({} : QgsProcessingParameterWidgetContext).setMapCanvas (some ⟨1⟩)
      = ({} : QgsProcessingParameterWidgetContext).setMapCanvas (some ⟨1⟩)
    ∧ parameterValue exactWidgetImpl wrapperWithWidget
      = parameterValue exactWidgetImpl wrapperWithWidget :=
  ⟨(operations_deterministic exactWidgetImpl {} {} rfl
      wrapperWithWidget wrapperWithWidget rfl
      QVariant.null QVariant.null rfl ⟨0⟩ ⟨0⟩ rfl
      (some ⟨1⟩) (some ⟨1⟩) rfl none none rfl none none rfl "" "" rfl
      ⟨0, QVariant.null⟩ ⟨0, QVariant.null⟩ rfl).1,
    (operations_deterministic exactWidgetImpl {} {} rfl
      wrapperWithWidget wrapperWithWidget rfl
      QVariant.null QVariant.null rfl ⟨0⟩ ⟨0⟩ rfl
      (some ⟨1⟩) (some ⟨1⟩) rfl none none rfl none none rfl "" "" rfl
      ⟨0, QVariant.null⟩ ⟨0, QVariant.null⟩ rfl).2.2.2.2.2.2.2.2.2.1⟩

/-- Claim C9: a default-constructed `QgsProcessingParameterWidgetContext` is
fully null/empty — `mapCanvas`, `project` and `model` return null and
`modelChildAlgorithmId` returns the empty string, per the default member
initializers in the header. -/
theorem default_widgetContext_empty :
    ({} : QgsProcessingParameterWidgetContext).mapCanvas = none
    ∧ ({} : QgsProcessingParameterWidgetContext).project = none
    ∧ ({} : QgsProcessingParameterWidgetContext).model = none
    ∧ ({} : QgsProcessingParameterWidgetContext).modelChildAlgorithmId = "" :=
  ⟨rfl, rfl, rfl, rfl⟩

/-- Claim C10: each `QgsProcessingParameterWidgetContext` setter modifies
only its own field — `setMapCanvas` leaves `project`, `model` and
`modelChildAlgorithmId` unchanged, and likewise for `setProject`, `setModel`
and `setModelChildAlgorithmId` with respect to the fields they do not set. -/
theorem widgetContext_setters_frame (ctx : QgsProcessingParameterWidgetContext)
    (c : Option QgsMapCanvas) (p : Option QgsProject)
    (m : Option QgsProcessingModelAlgorithm) (i : String) :
    ((ctx.setMapCanvas c).project = ctx.project
      ∧ (ctx.setMapCanvas c).model = ctx.model
      ∧ (ctx.setMapCanvas c).modelChildAlgorithmId = ctx.modelChildAlgorithmId)
    ∧ ((ctx.setProject p).mapCanvas = ctx.mapCanvas
      ∧ (ctx.setProject p).model = ctx.model
      ∧ (ctx.setProject p).modelChildAlgorithmId = ctx.modelChildAlgorithmId)
    ∧ ((ctx.setModel m).mapCanvas = ctx.mapCanvas
      ∧ (ctx.setModel m).project = ctx.project
      ∧ (ctx.setModel m).modelChildAlgorithmId = ctx.modelChildAlgorithmId)
    ∧ ((ctx.setModelChildAlgorithmId i).mapCanvas = ctx.mapCanvas
      ∧ (ctx.setModelChildAlgorithmId i).project = ctx.project
      ∧ (ctx.setModelChildAlgorithmId i).model = ctx.model) :=
  ⟨⟨rfl, rfl, rfl⟩, ⟨rfl, rfl, rfl⟩, ⟨rfl, rfl, rfl⟩, ⟨rfl, rfl, rfl⟩⟩
